import Mathlib

/-!
Verification of the `cargo-sleek` wrapper (`src/main.rs`).

The Rust program is embedded shallowly:

* The persisted statistics file (`command_stats.json`) is modelled as an
  association list `Store` from command names to `CommandStats` records;
  the JSON round-trip of `load_stats`/`save_stats` is the identity on this
  abstract state, and `HashMap` iteration order is represented by the
  order of the list. `usage_count` is a Rust `u32`, so increments are
  taken modulo `2 ^ 32`; `last_used` is a `u64` epoch-seconds value.
* Effectful functions are embedded as pure functions that take the
  relevant pieces of the outside world (the loaded store, the clock, the
  spawn result of the external `cargo` process, success of the file
  write) as explicit arguments and return the sequence of observable
  events together with the `anyhow::Result` value.
-/

/-- The `u32` modulus: `usage_count` arithmetic in the source is on `u32`. -/
def u32Mod : Nat := 2 ^ 32

/-- Rust `struct CommandStats \x7b usage_count: u32, last_used: u64 \x7d`
(`src/main.rs:14-18`). `Default` gives `⟨0, 0⟩`. -/
structure CommandStats where
  usage_count : Nat
  last_used : Nat
deriving DecidableEq

/-- The persisted mapping from command name to `CommandStats`, in the
iteration order of the underlying `HashMap` (arbitrary but fixed). -/
abbrev Store := List (String × CommandStats)

/-- Lookup of a command's record in the store (first matching key). -/
def lookupStats : Store → String → Option CommandStats
  | [], _ => none
  | (k, v) :: rest, key => if k = key then some v else lookupStats rest key

/-- The mutation `entry.usage_count += 1; entry.last_used = now` applied to
one record (`src/main.rs:52-53`), with `u32` wrap-around on the count. -/
def bumpStats (s : CommandStats) (now : Nat) : CommandStats :=
  ⟨(s.usage_count + 1) % u32Mod, now⟩

/-- The in-memory update performed by `track_command` (`src/main.rs:44-57`):
`stats.entry(command.to_string()).or_default()` followed by the increment.
On an association list this updates the record of `command` in place if
present, and otherwise inserts a fresh record (bumped from `Default`,
i.e. count `1`). The updated mapping is what `save_stats` writes back. -/
def track_command_update : Store → String → Nat → Store
  | [], cmd, now => [(cmd, bumpStats ⟨0, 0⟩ now)]
  | (k, v) :: rest, cmd, now =>
    if k = cmd then (k, bumpStats v now) :: rest
    else (k, v) :: track_command_update rest cmd now

/-- Result of `N` successive `track(cmd)` calls starting from an absent/empty store,
each save succeeding so that the next call loads the previous result. -/
def trackRepeat (cmd : String) (now : Nat) : Nat → Store
  | 0 => []
  | n + 1 => track_command_update (trackRepeat cmd now n) cmd now

lemma lookupStats_track_self (m : Store) (cmd : String) (now : Nat) :
    lookupStats (track_command_update m cmd now) cmd =
      some (bumpStats ((lookupStats m cmd).getD ⟨0, 0⟩) now) := by
  induction m with
  | nil => simp [track_command_update, lookupStats]
  | cons p rest ih =>
    obtain ⟨k, v⟩ := p
    by_cases hk : k = cmd
    · simp [track_command_update, lookupStats, hk]
    · simp [track_command_update, lookupStats, hk, ih]

lemma lookupStats_track_ne (m : Store) (cmd y : String) (now : Nat)
    (hy : y ≠ cmd) :
    lookupStats (track_command_update m cmd now) y = lookupStats m y := by
  induction m with
  | nil => simp [track_command_update, lookupStats, Ne.symm hy]
  | cons p rest ih =>
    obtain ⟨k, v⟩ := p
    by_cases hk : k = cmd
    · subst hk
      simp [track_command_update, lookupStats, Ne.symm hy]
    · by_cases hky : k = y <;>
        simp [track_command_update, lookupStats, hk, hky, ih, hy]

lemma trackRepeat_count (cmd : String) (now : Nat) :
    ∀ n : Nat, lookupStats (trackRepeat cmd now (n + 1)) cmd =
      some ⟨(n + 1) % u32Mod, now⟩ := by
  intro n
  induction n with
  | zero =>
    simp [trackRepeat, track_command_update, lookupStats, bumpStats]
  | succ n ih =>
    show lookupStats (track_command_update (trackRepeat cmd now (n + 1)) cmd now) cmd = _
    rw [lookupStats_track_self, ih]
    simp [bumpStats, Nat.mod_add_mod]

/-- C9: `track(x)` mutates only the record keyed by `x`: every record under
any other key `y ≠ x` is saved back exactly equal (same count and same
last-used timestamp) to what was loaded. -/
theorem track_frame_other_keys (m : Store) (x : String) (now : Nat)
    (y : String) (hy : y ≠ x) :
    lookupStats (track_command_update m x now) y = lookupStats m y :=
  lookupStats_track_ne m x y now hy

/-- Witness for `track_frame_other_keys` at a concrete store and keys. -/
theorem track_frame_other_keys_witness :
    lookupStats (track_command_update [("a", ⟨2, 5⟩)] "b" 9) "a" =
      lookupStats [("a", ⟨2, 5⟩)] "a" :=
  track_frame_other_keys [("a", ⟨2, 5⟩)] "b" 9 "a" (by decide)

/-- C4 (counterexample): after `2 ^ 32` successive `track("x")` calls the
`u32` counter has wrapped to `0`, so the record's count is not `N`. -/
theorem trackN_u32_wrap_cex :
    ¬ ((lookupStats (trackRepeat "x" 0 (2 ^ 32)) "x").map
        CommandStats.usage_count = some (2 ^ 32)) := by
  have h := trackRepeat_count "x" 0 (2 ^ 32 - 1)
  have h32 : 2 ^ 32 - 1 + 1 = 2 ^ 32 := by norm_num
  rw [h32] at h
  rw [h]
  simp [u32Mod, Nat.mod_self]

/-- C4 (amended): starting from an absent or empty store, `N` successive
`track("x")` calls (no interleaving, all saves succeeding) yield a record
for `"x"` with count `N mod 2 ^ 32`; in particular count `N` whenever
`1 ≤ N < 2 ^ 32`. -/
theorem trackN_count_eq_N (cmd : String) (now : Nat) (n : Nat)
    (h1 : 1 ≤ n) (h2 : n < u32Mod) :
    lookupStats (trackRepeat cmd now n) cmd = some ⟨n, now⟩ := by
  obtain ⟨m, rfl⟩ : ∃ m, n = m + 1 := ⟨n - 1, (Nat.succ_pred_eq_of_pos h1).symm⟩
  rw [trackRepeat_count cmd now m]
  exact congrArg some (by simp [Nat.mod_eq_of_lt h2])

/-- Witness for `trackN_count_eq_N` at `N = 3`. -/
theorem trackN_count_eq_N_witness :
    lookupStats (trackRepeat "x" 7 3) "x" = some ⟨3, 7⟩ :=
  trackN_count_eq_N "x" 7 3 (by decide) (by decide)

/-- The `ExitStatus` of the spawned child as observed by the wrapper:
`success()` and `code()` are read separately in the source. -/
structure ChildStatus where
  success : Bool
  code : Option Int
deriving DecidableEq

/-- Observable events of `execute_cargo_command`, in order of occurrence:
the announcement print, the store written by `save_stats`, the optional
verbose print, the spawn of the external tool, and the failure print. -/
inductive Event where
  | printedRunning (cmd : String)
  | statsSaved (m : Store)
  | printedExecuting (prog : String) (argv : List String)
  | spawned (prog : String) (argv : List String)
  | printedFailure (code : Option Int)
deriving DecidableEq

/-- Process exit code induced by the `anyhow::Result` returned from
`main`: `Ok` exits `0`, `Err` prints the error and exits `1`. -/
def processExitCode : Except String Unit → Nat
  | Except.ok _ => 0
  | Except.error _ => 1

/-- Rust `executor::execute_cargo_command` (`src/main.rs:181-202`), embedded
over the outside world: `store` is the mapping `load_stats` returns,
`now` the clock value, `extraArgs` the value of `args.get_many("args")`,
`saveOk` whether the `fs::write` in `save_stats` succeeds, and
`spawnResult` the outcome of `cmd.status()` (`none` = spawn failure).
Returns the event trace and the function's `Result`.  Note the `?` on
`stats::track_command(command)?`: a save failure returns early, before
the child is spawned. -/
def execute_cargo_command (store : Store) (now : Nat) (command : String)
    (extraArgs : Option (List String)) (verbose : Bool)
    (saveOk : Bool) (spawnResult : Option ChildStatus) :
    List Event × Except String Unit :=
  let ev0 : List Event := [Event.printedRunning command]
  let newStore := track_command_update store command now
  if saveOk then
    let ev1 := ev0 ++ [Event.statsSaved newStore]
    let argv := command :: extraArgs.getD []
    let ev2 := if verbose then ev1 ++ [Event.printedExecuting "cargo" argv] else ev1
    match spawnResult with
    | none => (ev2, Except.error "Failed to execute cargo command")
    | some st =>
      let ev3 := ev2 ++ [Event.spawned "cargo" argv]
      if st.success then (ev3, Except.ok ())
      else (ev3 ++ [Event.printedFailure st.code], Except.ok ())
  else (ev0, Except.error "Failed to write stats file")

/-- The dispatch of `main` (`src/main.rs:232-241`), on the subcommand
token reported by the argument parser (`none` when no subcommand was
given; `clap` itself only admits the seven registered tokens, and any
other token already falls to its error path — represented here, like the
source's `_` arm, by `unknown`). -/
inductive RouteAction where
  | showStats
  | resetStats
  | checkDeps
  | buildTime
  | passthrough (cmd : String)
  | unknown
deriving DecidableEq

/-- The router of `main` (`src/main.rs:232-241`): the `match` on
`matches.subcommand()`, written as the equivalent chain of string
comparisons. Only `run`, `build` and `clean` reach
`execute_cargo_command`; everything else falls to the
`"Unknown command"` arm. -/
def route (sub : Option String) : RouteAction :=
  match sub with
  | none => RouteAction.unknown
  | some tok =>
    if tok = "stats" then RouteAction.showStats
    else if tok = "reset" then RouteAction.resetStats
    else if tok = "check-deps" then RouteAction.checkDeps
    else if tok = "build-time" then RouteAction.buildTime
    else if tok = "run" then RouteAction.passthrough "run"
    else if tok = "build" then RouteAction.passthrough "build"
    else if tok = "clean" then RouteAction.passthrough "clean"
    else RouteAction.unknown

/-- C1 (counterexample): `test` is not one of the reserved analytic
subcommand names (stats, reset, check-deps, build-time), yet the router
does not select passthrough for it: the invocation falls to the
`"Unknown command"` arm and no external tool is spawned. -/
theorem router_nonreserved_not_passthrough_cex :
    "test" ∉ ["stats", "reset", "check-deps", "build-time"] ∧
    route (some "test") = RouteAction.unknown ∧
    route (some "test") ≠ RouteAction.passthrough "test" :=
  ⟨by decide, rfl, by decide⟩

/-- C1 (amended): passthrough is selected only for the three registered
build-tool tokens `run`, `build`, `clean`; every other token outside the
analytic names also falls to the unknown-command arm instead of being
forwarded. For the tokens that are passed through, the external tool is
spawned with the token as its first argument followed by the remaining
argument vector. -/
theorem router_passthrough_only_registered :
    (∀ tok : String,
        tok ∉ ["stats", "reset", "check-deps", "build-time",
               "run", "build", "clean"] →
        route (some tok) = RouteAction.unknown) ∧
    route (some "run") = RouteAction.passthrough "run" ∧
    route (some "build") = RouteAction.passthrough "build" ∧
    route (some "clean") = RouteAction.passthrough "clean" ∧
    ∀ (store : Store) (now : Nat) (cmd : String)
      (extraArgs : Option (List String)) (st : ChildStatus),
      Event.spawned "cargo" (cmd :: extraArgs.getD []) ∈
        (execute_cargo_command store now cmd extraArgs false true (some st)).1 := by
  refine ⟨?_, rfl, rfl, rfl, ?_⟩
  · intro tok h
    simp only [List.mem_cons, List.not_mem_nil, or_false, not_or] at h
    obtain ⟨h1, h2, h3, h4, h5, h6, h7⟩ := h
    simp [route, h1, h2, h3, h4, h5, h6, h7]
  · intro store now cmd extraArgs st
    obtain ⟨s, c⟩ := st
    cases s <;> simp [execute_cargo_command]

/-- Witness for `router_passthrough_only_registered`: the non-analytic,
non-registered token `test` is routed to the unknown arm. -/
theorem router_passthrough_only_registered_witness :
    route (some "test") = RouteAction.unknown :=
  router_passthrough_only_registered.1 "test" (by decide)

/-- C2 (counterexample): with the external tool exiting with code 7
(`success() = false`, `code() = Some(7)`) and the stats save and spawn
succeeding, `execute_cargo_command` still returns `Ok(())`, so the
wrapping process terminates with exit code 0, not 7. -/
theorem exit_code_not_propagated_cex :
    processExitCode
        (execute_cargo_command [] 0 "build" none false true
          (some ⟨false, some 7⟩)).2 = 0 ∧
    (0 : Nat) ≠ 7 :=
  ⟨rfl, by decide⟩

/-- C2 (amended): whenever the stats save and the spawn succeed, the
wrapping process terminates with exit code 0 regardless of the child's
exit status (including a child that terminated without a reportable
code); a failing child only causes the failure message print. The
wrapper exits 1 exactly on the error paths: spawn failure and stats
write failure. -/
theorem wrapper_exit_zero_despite_child_failure :
    ∀ (store : Store) (now : Nat) (cmd : String)
      (extraArgs : Option (List String)) (verbose : Bool) (c : Option Int),
      processExitCode (execute_cargo_command store now cmd extraArgs verbose true
          (some ⟨false, c⟩)).2 = 0 ∧
      Event.printedFailure c ∈ (execute_cargo_command store now cmd extraArgs verbose true
          (some ⟨false, c⟩)).1 ∧
      processExitCode (execute_cargo_command store now cmd extraArgs verbose true
          (some ⟨true, c⟩)).2 = 0 ∧
      processExitCode (execute_cargo_command store now cmd extraArgs verbose true
          none).2 = 1 ∧
      ∀ spawnResult, processExitCode
          (execute_cargo_command store now cmd extraArgs verbose false spawnResult).2 = 1 := by
  intro store now cmd extraArgs verbose c
  cases verbose <;>
    exact ⟨rfl, by simp [execute_cargo_command], rfl, rfl, fun _ => rfl⟩

/-- Count of `cmd` in the loaded store, `0` when the record is absent
(the `or_default` of `src/main.rs:51`). -/
def oldCount (store : Store) (cmd : String) : Nat :=
  ((lookupStats store cmd).map CommandStats.usage_count).getD 0

/-- C3: in a passthrough execution the statistics save happens strictly
before the child is spawned; the saved mapping
`track_command_update store cmd now` does not depend on the child's
status at all, and in it the command's count is the loaded count plus
one (stated below any `u32` overflow), so the increment by exactly 1
happens regardless of whether the child subsequently succeeds or
fails. -/
theorem track_before_spawn_count_incremented
    (store : Store) (now : Nat) (cmd : String)
    (extraArgs : Option (List String)) (verbose : Bool) (st : ChildStatus)
    (h : oldCount store cmd + 1 < u32Mod) :
    ∃ i j, i < j ∧
      (execute_cargo_command store now cmd extraArgs verbose true (some st)).1.get? i =
        some (Event.statsSaved (track_command_update store cmd now)) ∧
      (execute_cargo_command store now cmd extraArgs verbose true (some st)).1.get? j =
        some (Event.spawned "cargo" (cmd :: extraArgs.getD [])) ∧
      (lookupStats (track_command_update store cmd now) cmd).map
          CommandStats.usage_count = some (oldCount store cmd + 1) := by
  have hgd : ((lookupStats store cmd).getD ⟨0, 0⟩).usage_count = oldCount store cmd := by
    unfold oldCount
    cases lookupStats store cmd <;> rfl
  have hcount : (lookupStats (track_command_update store cmd now) cmd).map
      CommandStats.usage_count = some (oldCount store cmd + 1) := by
    rw [lookupStats_track_self]
    simp [bumpStats, hgd, Nat.mod_eq_of_lt h]
  obtain ⟨s, c⟩ := st
  cases verbose
  · cases s
    · exact ⟨1, 2, by omega, rfl, rfl, hcount⟩
    · exact ⟨1, 2, by omega, rfl, rfl, hcount⟩
  · cases s
    · exact ⟨1, 3, by omega, rfl, rfl, hcount⟩
    · exact ⟨1, 3, by omega, rfl, rfl, hcount⟩

/-- Witness for `track_before_spawn_count_incremented`: empty store,
command `build`, child failing with code 7. -/
theorem track_before_spawn_count_incremented_witness :
    ∃ i j, i < j ∧
      (execute_cargo_command [] 0 "build" none false true
          (some ⟨false, some 7⟩)).1.get? i =
        some (Event.statsSaved (track_command_update [] "build" 0)) ∧
      (execute_cargo_command [] 0 "build" none false true
          (some ⟨false, some 7⟩)).1.get? j =
        some (Event.spawned "cargo" ("build" :: (none : Option (List String)).getD [])) ∧
      (lookupStats (track_command_update [] "build" 0) "build").map
          CommandStats.usage_count = some (oldCount [] "build" + 1) :=
  track_before_spawn_count_incremented [] 0 "build" none false ⟨false, some 7⟩ (by decide)

/-- C6 (counterexample): with the stats write failing, a concrete
passthrough run stops inside `track_command`: the error propagates
(message `Failed to write stats file`) and the child is never spawned —
only the initial announcement print has happened. -/
theorem save_failure_aborts_cex :
    execute_cargo_command [] 0 "build" none false false (some ⟨true, some 0⟩) =
      ([Event.printedRunning "build"], Except.error "Failed to write stats file") ∧
    Event.spawned "cargo" ["build"] ∉
      (execute_cargo_command [] 0 "build" none false false (some ⟨true, some 0⟩)).1 :=
  ⟨rfl, by decide⟩

/-- C6 (amended): a failure to write the statistics file during a
passthrough execution is surfaced as the message
`Failed to write stats file` and makes the wrapper exit 1; effects that
already completed (the announcement print) stand, but the operation does
not proceed: the child is never spawned and nothing is saved. -/
theorem save_failure_aborts_passthrough :
    ∀ (store : Store) (now : Nat) (cmd : String)
      (extraArgs : Option (List String)) (verbose : Bool)
      (spawnResult : Option ChildStatus),
      execute_cargo_command store now cmd extraArgs verbose false spawnResult =
        ([Event.printedRunning cmd], Except.error "Failed to write stats file") ∧
      processExitCode
        (execute_cargo_command store now cmd extraArgs verbose false spawnResult).2 = 1 :=
  fun _ _ _ _ _ _ => ⟨rfl, rfl⟩

/-- Rust `str::trim` on a line, at the character level: whitespace is
stripped from both ends. -/
def trimChars (l : List Char) : List Char :=
  ((l.dropWhile Char.isWhitespace).reverse.dropWhile Char.isWhitespace).reverse

/-- Rust `str::starts_with`, at the character level. -/
def startsWithChars (l p : List Char) : Bool := p.isPrefixOf l

/-- Rust `str::contains`: `pat` occurs as a contiguous substring of
`hay`, decided by checking whether it starts at any offset. -/
def containsSub (hay pat : List Char) : Bool :=
  (List.range (hay.length + 1)).any fun i => pat.isPrefixOf (hay.drop i)

/-- Rust `trimmed.split('=').next().unwrap()`, then `trim` — the part of
the line left of the first `=` (the whole line when there is no `=`),
trimmed of whitespace (`src/main.rs:156-157`). -/
def lineDepName (trimmed : List Char) : List Char :=
  trimChars (trimmed.takeWhile (· != '='))

/-- The names collected by the manifest scan of `check_unused_deps`
(`src/main.rs:144-163`), without the lock-text filter: starting from
section state `in_deps`, a line whose trimmed form starts with
`[dependencies]` turns the state on and is skipped; any other line whose
trimmed form starts with `[` turns it off; while the state is on, the
trimmed part of the line left of the first `=` is a dependency name, in
manifest line order. -/
def depTokensFrom : Bool → List (List Char) → List (List Char)
  | _, [] => []
  | in_deps, line :: rest =>
    let trimmed := trimChars line
    if startsWithChars trimmed "[dependencies]".toList then depTokensFrom true rest
    else
      let b := if startsWithChars trimmed "[".toList then false else in_deps
      if b then lineDepName trimmed :: depTokensFrom b rest
      else depTokensFrom b rest

/-- The loop of `check_unused_deps` (`src/main.rs:144-163`) from section
state `in_deps`: the same scan as `depTokensFrom`, but a collected name
is pushed onto the result only if it does not occur as a substring of
the lock text. -/
def checkUnusedFrom : Bool → List Char → List (List Char) → List (List Char)
  | _, _, [] => []
  | in_deps, lock, line :: rest =>
    let trimmed := trimChars line
    if startsWithChars trimmed "[dependencies]".toList then
      checkUnusedFrom true lock rest
    else
      let b := if startsWithChars trimmed "[".toList then false else in_deps
      if b then
        if containsSub lock (lineDepName trimmed) then checkUnusedFrom b lock rest
        else lineDepName trimmed :: checkUnusedFrom b lock rest
      else checkUnusedFrom b lock rest

/-- The dependency names of a manifest (given as its list of lines),
scanned from the initial state "outside the dependencies section". -/
def depTokens (manifestLines : List (List Char)) : List (List Char) :=
  depTokensFrom false manifestLines

/-- Rust `dependencies::check_unused_deps` on already-read texts
(`src/main.rs:141-163`): the manifest is scanned line by line and the
collected names not occurring in the lock text are reported, in manifest
line order. -/
def check_unused_deps (manifestLines : List (List Char)) (lock : List Char) :
    List (List Char) :=
  checkUnusedFrom false lock manifestLines

/-- The surrounding reads of `check_unused_deps` (`src/main.rs:138-139`):
`Cargo.toml` is read with `.context(...)?` — a failed read (`none`) is an
error — while a failed read of `Cargo.lock` is silently replaced by the
empty text (`unwrap_or_default()`). -/
def check_unused_deps_run (manifestRead : Option (List (List Char)))
    (lockRead : Option (List Char)) : Except String (List (List Char)) :=
  match manifestRead with
  | none => Except.error "Failed to read Cargo.toml"
  | some manifestLines =>
    Except.ok (check_unused_deps manifestLines (lockRead.getD []))

lemma checkUnusedFrom_eq_filter (lock : List Char) :
    ∀ (lines : List (List Char)) (b : Bool),
      checkUnusedFrom b lock lines =
        (depTokensFrom b lines).filter fun d => ! containsSub lock d := by
  intro lines
  induction lines with
  | nil => intro b; rfl
  | cons line rest ih =>
    intro b
    simp only [checkUnusedFrom, depTokensFrom]
    by_cases h1 : startsWithChars (trimChars line) "[dependencies]".toList = true
    · simp only [h1, if_true]
      exact ih true
    · simp only [h1, Bool.false_eq_true, if_false]
      set b2 := (if startsWithChars (trimChars line) "[".toList then false else b)
        with hb2
      by_cases h2 : b2 = true
      · rw [h2]
        simp only [if_true]
        rw [ih true, List.filter_cons]
        cases hC : containsSub lock (lineDepName (trimChars line)) <;> simp [hC]
      · simp only [Bool.not_eq_true] at h2
        rw [h2]
        simp only [Bool.false_eq_true, if_false]
        exact ih false

lemma containsSub_nil_right (d : List Char) (hd : d ≠ []) :
    containsSub [] d = false := by
  cases d with
  | nil => exact absurd rfl hd
  | cons c cs => rfl

/-- C5: the dependency check reports exactly the trimmed left-of-`=`
tokens of the lines inside the `[dependencies]` section that do not
occur as substrings of the lock text, in manifest line order; on the
spec's example manifest with a lock text containing `foo` only, the
reported unused set is exactly `bar` (`baz` lies outside the tracked
section). -/
theorem check_unused_deps_spec :
    (∀ (manifestLines : List (List Char)) (lock : List Char),
        check_unused_deps manifestLines lock =
          (depTokens manifestLines).filter fun d => ! containsSub lock d) ∧
    check_unused_deps
        ["[dependencies]".toList, "foo = \"1.0\"".toList, "bar = \"2.0\"".toList,
         "[dev-dependencies]".toList, "baz = \"3.0\"".toList] "foo".toList =
      ["bar".toList] :=
  ⟨fun m lock => checkUnusedFrom_eq_filter lock m false, by decide⟩

/-- C10: the two inputs of the dependency check are treated
asymmetrically: an unreadable manifest is an error
(`Failed to read Cargo.toml`), while an unreadable lock file is silently
treated as empty text, in which case every (nonempty) dependency name of
the `[dependencies]` section is reported as unused. -/
theorem check_deps_input_asymmetry
    (manifestLines : List (List Char)) (lockRead : Option (List Char))
    (d : List Char) (hd : d ∈ depTokens manifestLines) (hne : d ≠ []) :
    check_unused_deps_run none lockRead =
        Except.error "Failed to read Cargo.toml" ∧
    check_unused_deps_run (some manifestLines) none =
      Except.ok (check_unused_deps manifestLines []) ∧
    d ∈ check_unused_deps manifestLines [] := by
  refine ⟨rfl, rfl, ?_⟩
  show d ∈ checkUnusedFrom false [] manifestLines
  rw [checkUnusedFrom_eq_filter [] manifestLines false, List.mem_filter]
  exact ⟨hd, by simp [containsSub_nil_right d hne]⟩

/-- Witness for `check_deps_input_asymmetry`: a one-dependency manifest
whose name `foo` is reported once the lock read fails. -/
theorem check_deps_input_asymmetry_witness :
    check_unused_deps_run none (some "lock".toList) =
        Except.error "Failed to read Cargo.toml" ∧
    check_unused_deps_run
        (some ["[dependencies]".toList, "foo = \"1.0\"".toList]) none =
      Except.ok
        (check_unused_deps ["[dependencies]".toList, "foo = \"1.0\"".toList] []) ∧
    "foo".toList ∈
      check_unused_deps ["[dependencies]".toList, "foo = \"1.0\"".toList] [] :=
  check_deps_input_asymmetry ["[dependencies]".toList, "foo = \"1.0\"".toList]
    (some "lock".toList) "foo".toList (by decide) (by decide)

/-- The outside world of one `cargo build --timings` run as observed by
`performance::analyze_build_time` (`src/main.rs:103-129`):
`spawnStatus` is the outcome of `.status()` (`none` = spawn failure),
`toolOutput` is the text the child writes to the inherited stdout —
the source never captures or reads it — `durationMs` the measured
wall-clock time, and `targetDebugSizeKB` the `fs::metadata` size of
`target/debug` in KB (`none` when unavailable). -/
structure BuildWorld where
  spawnStatus : Option ChildStatus
  toolOutput : List Char
  durationMs : Nat
  targetDebugSizeKB : Option Nat
deriving DecidableEq

/-- The messages `analyze_build_time` prints, in order. -/
inductive BuildMessage where
  | analyzing
  | buildCompleted (durationMs : Nat)
  | approxSize (kb : Nat)
  | timingReportNote
  | buildFailed
deriving DecidableEq

/-- Rust `performance::analyze_build_time` (`src/main.rs:103-129`): print the
analyzing banner, spawn `cargo build --timings` (spawn failure is an
error), and on completion report either the duration, the approximate
size (`unwrap_or_default()` = 0 when unavailable) and, when verbose, the
timing-report note — or the build-failed message. The tool's output text
plays no part in the result. -/
def analyze_build_time (verbose : Bool) (w : BuildWorld) :
    List BuildMessage × Except String Unit :=
  match w.spawnStatus with
  | none => ([BuildMessage.analyzing],
      Except.error "Failed to execute cargo build --timings")
  | some st =>
    if st.success then
      ([BuildMessage.analyzing, BuildMessage.buildCompleted w.durationMs,
          BuildMessage.approxSize (w.targetDebugSizeKB.getD 0)] ++
        (if verbose then [BuildMessage.timingReportNote] else []),
       Except.ok ())
    else ([BuildMessage.analyzing, BuildMessage.buildFailed], Except.ok ())

/-- The lines of a text, split at newline characters. -/
def splitLines : List Char → List (List Char)
  | [] => [[]]
  | c :: rest =>
    let r := splitLines rest
    if c = '\n' then [] :: r
    else (c :: r.headD []) :: r.tail

/-- Modelled from the spec: the `slowest_unit` signal described in the
specification — the last line of the captured tool output containing
the marker substring `slowest` (`none` when no line contains it). The
source's `analyze_build_time` computes no such signal: it never
captures the tool's output. -/
def slowestUnitSpec (out : List Char) : Option (List Char) :=
  ((splitLines out).filter fun l => containsSub l "slowest".toList).getLast?

/-- C7 (counterexample): two runs identical except for the tool's output
text — one containing a line with the `slowest` marker, one with no such
line — produce exactly the same result, so no component of the result
can surface the marker line as a `slowest_unit` signal. -/
theorem no_slowest_unit_cex :
    analyze_build_time true
        ⟨some ⟨true, some 0⟩, "Compiling foo\nslowest: foo 12.3s".toList,
          250, some 42⟩ =
      analyze_build_time true ⟨some ⟨true, some 0⟩, [], 250, some 42⟩ ∧
    slowestUnitSpec "Compiling foo\nslowest: foo 12.3s".toList =
      some "slowest: foo 12.3s".toList ∧
    slowestUnitSpec [] = none :=
  ⟨rfl, by decide, by decide⟩

/-- C7 (amended): the build profiler never captures or scans the tool's
output; its result is a function of the spawn status, the measured
duration and the artifact size only, and is therefore independent of the
output text — no `slowest_unit` extraction exists. -/
theorem analyze_ignores_tool_output :
    ∀ (verbose : Bool) (sp : Option ChildStatus) (out1 out2 : List Char)
      (durationMs : Nat) (sizeKB : Option Nat),
      analyze_build_time verbose ⟨sp, out1, durationMs, sizeKB⟩ =
        analyze_build_time verbose ⟨sp, out2, durationMs, sizeKB⟩ := by
  intro verbose sp out1 out2 durationMs sizeKB
  cases sp <;> rfl

/-- The comparator of `show_stats` (`src/main.rs:67`):
`sorted.sort_by(|a, b| b.1.usage_count.cmp(&a.1.usage_count))` puts `a`
before `b` when `b`'s count is at most `a`'s. -/
def countGE (a b : String × CommandStats) : Prop :=
  b.2.usage_count ≤ a.2.usage_count

instance : DecidableRel countGE := fun a b => Nat.decLe b.2.usage_count a.2.usage_count

instance : IsTotal (String × CommandStats) countGE :=
  ⟨fun a b => Nat.le_total b.2.usage_count a.2.usage_count⟩

instance : IsTrans (String × CommandStats) countGE :=
  ⟨fun _ _ _ hab hbc => le_trans hbc hab⟩

/-- The `sort_by` of `show_stats` (`src/main.rs:66-67`): a stable sort of
the loaded entries by descending usage count (embedded as the stable
insertion sort, which realizes Rust's stable-sort contract). -/
def sortStatsRows (store : Store) : List (String × CommandStats) :=
  List.insertionSort countGE store

/-- The rendered rows of `show_stats` (`src/main.rs:72-83`): rank
`i + 1`, command name and record, in sorted order. -/
def showRows (store : Store) : List (Nat × String × CommandStats) :=
  (sortStatsRows store).enum.map fun p => (p.1 + 1, p.2)

/-- What `stats::show_stats` renders (`src/main.rs:59-86`): the no-data
message on an empty store, otherwise the ranked table. -/
inductive ShowOutput where
  | noData
  | table (rows : List (Nat × String × CommandStats))
deriving DecidableEq

/-- Rust `stats::show_stats` (`src/main.rs:59-86`). -/
def show_stats (store : Store) : ShowOutput :=
  if store.isEmpty then ShowOutput.noData
  else ShowOutput.table (showRows store)

/-- C8: for every store contents, the rows `show()` renders are the
store's records sorted by count in descending order (a permutation of
the store, pairwise non-increasing in count; tie order among equal
counts is left unspecified); on records with counts `[5, 1, 3]` the
rendered order is the count-5 entry, then count-3, then count-1. -/
theorem show_stats_sorted_desc :
    (∀ store : Store,
        ((showRows store).map fun r => r.2).Pairwise
            (fun a b => b.2.usage_count ≤ a.2.usage_count) ∧
        ((showRows store).map fun r => r.2).Perm store) ∧
    show_stats [("a", ⟨5, 10⟩), ("b", ⟨1, 11⟩), ("c", ⟨3, 12⟩)] =
      ShowOutput.table
        [(1, ("a", ⟨5, 10⟩)), (2, ("c", ⟨3, 12⟩)), (3, ("b", ⟨1, 11⟩))] := by
  refine ⟨fun store => ?_, by decide⟩
  have hmap : ((showRows store).map fun r => r.2) = sortStatsRows store := by
    unfold showRows
    rw [List.map_map]
    have hcomp : ((fun r : Nat × String × CommandStats => r.2) ∘
        fun p : Nat × (String × CommandStats) => (p.1 + 1, p.2)) = Prod.snd := rfl
    rw [hcomp, List.enum_map_snd]
  rw [hmap]
  exact ⟨List.sorted_insertionSort countGE store,
    List.perm_insertionSort countGE store⟩
